import Mathlib

/-!
Verification of the subtitle-downloader core: task queue, retry policy with
error classification, caption parsing, progress tracking and statistics.
The definitions below are shallow embeddings of the JavaScript source
(src/lib/queue.js, src/lib/retry.js, src/utils/errors.js, src/core/parser.js,
src/lib/progress.js, src/lib/stats.js, src/core/downloader.js).
Strings are processed as lists of characters; JavaScript regular-expression
tests are embedded as explicit scanning functions with the same semantics on
the patterns the source uses.
-/

/-! ### Character and string utilities -/

/-- Test whether the pattern list is an initial segment of the string list. -/
def leadsWith : List Char → List Char → Bool
  | [], _ => true
  | _ :: _, [] => false
  | c :: cs, d :: ds => c == d && leadsWith cs ds

/-- JavaScript String.prototype.includes: the pattern occurs somewhere. -/
def hasSeg (pat : List Char) : List Char → Bool
  | [] => leadsWith pat []
  | c :: rest => leadsWith pat (c :: rest) || hasSeg pat rest

/-- The remainder of the string after the first occurrence of the pattern,
or none when the pattern does not occur (leftmost match, as a regex scan). -/
def afterSeg (pat : List Char) : List Char → Option (List Char)
  | [] => if leadsWith pat [] then some [] else none
  | c :: rest =>
    if leadsWith pat (c :: rest) then some ((c :: rest).drop pat.length)
    else afterSeg pat rest

/-- A regex of the shape part1.*part2.*...: each literal part occurs, in
order, each after the end of the previous one (leftmost scanning, which is
complete for existence of a match). -/
def matchParts : List (List Char) → List Char → Bool
  | [], _ => true
  | p :: ps, s =>
    match afterSeg p s with
    | none => false
    | some rest => matchParts ps rest

/-- The characters of a string, lower-cased (models a case-insensitive
regex test against the message). -/
def lowerChars (s : String) : List Char := s.data.map Char.toLower

/-- JavaScript includes on strings (case-sensitive). -/
def strContains (s pat : String) : Bool := hasSeg pat.data s.data

/-- JavaScript String.prototype.endsWith. -/
def strEndsWithSuffix (s pat : String) : Bool :=
  leadsWith pat.data.reverse s.data.reverse

/-- JavaScript String.prototype.trim (whitespace at both ends removed). -/
def trimChars (l : List Char) : List Char :=
  ((l.dropWhile Char.isWhitespace).reverse.dropWhile Char.isWhitespace).reverse

/-- Helper for collapsing whitespace runs: the flag records whether the
previous character was whitespace (already replaced by one space). -/
def collapseWsGo : Bool → List Char → List Char
  | _, [] => []
  | prevWs, c :: rest =>
    if c.isWhitespace then
      if prevWs then collapseWsGo true rest
      else ' ' :: collapseWsGo true rest
    else c :: collapseWsGo false rest

/-- JavaScript replace of every whitespace run by a single space. -/
def collapseWs (l : List Char) : List Char := collapseWsGo false l

/-- Split a character list on newline characters, JavaScript split semantics
(an empty string yields one empty line). -/
def splitLinesGo (cur : List Char) : List Char → List (List Char)
  | [] => [cur.reverse]
  | '\n' :: rest => cur.reverse :: splitLinesGo [] rest
  | c :: rest => splitLinesGo (c :: cur) rest

/-- The lines of a string content, split on newline. -/
def splitLines (s : String) : List (List Char) := splitLinesGo [] s.data

/-- Join character-list lines with single newlines into a string. -/
def joinLines (ls : List (List Char)) : String :=
  String.mk (List.intercalate ['\n'] ls)

/-! ### Error model (src/utils/errors.js)

A JavaScript error is modelled by its observable fields: the message, the
class name, and the extra fields the custom error classes attach. An error
is an instance of DownloadError exactly when isRetryableFlag is some value
(that class always sets the field). -/

structure JsError where
  name : String := "Error"
  message : String := ""
  videoId : Option String := none
  /-- The isRetryable field a DownloadError carries; none on other errors. -/
  isRetryableFlag : Option Bool := none
  /-- The filePath field a ParseError carries; none on other errors. -/
  filePath : Option String := none
  deriving DecidableEq, Repr

/-- new DownloadError(message, videoId, isRetryable). -/
def mkDownloadError (message videoId : String) (isRetryable : Bool) : JsError :=
  { name := "DownloadError", message := message, videoId := some videoId,
    isRetryableFlag := some isRetryable }

/-- new ParseError(message, filePath). -/
def mkParseError (message filePath : String) : JsError :=
  { name := "ParseError", message := message, filePath := some filePath }

/-- The non-retryable message patterns of isRetryableError, each as the
literal parts of the regex (all tested case-insensitively, so given here
lower-cased; .* between parts). -/
def nonRetryablePatterns : List (List (List Char)) :=
  [ ["video".data, "not available".data],
    ["video".data, "private".data],
    ["video".data, "deleted".data],
    ["video".data, "removed".data],
    ["invalid".data, "url".data],
    ["404".data],
    ["no".data, "subtitle".data],
    ["subtitle".data, "not".data, "available".data],
    ["permission denied".data],
    ["access denied".data] ]

/-- The retryable message patterns of isRetryableError (network conditions). -/
def retryablePatterns : List (List (List Char)) :=
  [ ["network".data], ["timeout".data], ["econnreset".data], ["etimedout".data],
    ["enotfound".data], ["rate".data, "limit".data], ["too many requests".data],
    ["503".data], ["502".data] ]

/-- Whether the message matches one of the non-retryable patterns. -/
def matchesNonRetryable (message : String) : Bool :=
  nonRetryablePatterns.any (fun p => matchParts p (lowerChars message))

/-- Whether the message matches one of the retryable patterns. -/
def matchesRetryable (message : String) : Bool :=
  retryablePatterns.any (fun p => matchParts p (lowerChars message))

/-- isRetryableError from src/utils/errors.js: the non-retryable message
patterns are tested first; then a DownloadError answers its explicit flag;
then the retryable patterns; anything else is non-retryable. -/
def isRetryableError (e : JsError) : Bool :=
  if matchesNonRetryable e.message then false
  else
    match e.isRetryableFlag with
    | some b => b
    | none => matchesRetryable e.message

/-! ### Retry policy (src/lib/retry.js, src/config/constants.js)

The asynchronous operation is embedded as a function from the invocation
number (0-based) to an Except result; withRetry returns the final outcome
together with the number of invocations made and the list of backoff delays
slept, which are the observables the specification talks about. -/

structure RetryParams where
  maxRetries : Nat
  baseDelay : Nat
  maxDelay : Nat
  backoffFactor : Nat
  deriving DecidableEq, Repr

/-- CONFIG retry defaults from src/config/constants.js. -/
def defaultRetryParams : RetryParams :=
  { maxRetries := 3, baseDelay := 1000, maxDelay := 30000, backoffFactor := 2 }

structure RetryTrace (R : Type) where
  outcome : Except JsError R
  invocations : Nat
  delays : List Nat
  deriving Repr

/-- The backoff delay before the n-th retry (n is 1-indexed, matching the
source's attempt counter after its increment):
min(baseDelay * backoffFactor^(attempt-1), maxDelay). -/
def retryDelay (p : RetryParams) (attempt : Nat) : Nat :=
  min (p.baseDelay * p.backoffFactor ^ (attempt - 1)) p.maxDelay

/-- The retry loop of withRetry. attempt counts invocations already made
(the source's attempt variable on loop entry); fuel is an upper bound on the
remaining retries, maintained as maxRetries - attempt by the wrapper, so the
fuel-exhausted branch is never reached before the source's own
attempt > maxRetries check (the guard maxRetries ≤ attempt fires first). -/
def withRetryGo {R : Type} (fn : Nat → Except JsError R) (p : RetryParams) :
    Nat → Nat → RetryTrace R
  | attempt, fuel =>
    match fn attempt with
    | Except.ok r => ⟨Except.ok r, 1, []⟩
    | Except.error e =>
      if isRetryableError e = false then ⟨Except.error e, 1, []⟩
      else if p.maxRetries ≤ attempt then ⟨Except.error e, 1, []⟩
      else
        match fuel with
        | 0 => ⟨Except.error e, 1, []⟩
        | Nat.succ fuel2 =>
          let rest := withRetryGo fn p (attempt + 1) fuel2
          ⟨rest.outcome, rest.invocations + 1, retryDelay p (attempt + 1) :: rest.delays⟩

/-- withRetry from src/lib/retry.js: invoke once unconditionally; on a
non-retryable error rethrow at once; on a retryable error, stop after
attempt > maxRetries, otherwise sleep the exponential-backoff delay and
retry. -/
def withRetry {R : Type} (fn : Nat → Except JsError R) (p : RetryParams) :
    RetryTrace R :=
  withRetryGo fn p 0 p.maxRetries

/-! ### Task queue (src/lib/queue.js, processQueue)

processQueue hands every item to p-limit, which admits at most concurrency
workers at a time, first submitted first admitted; each worker catches its
own failure and records it, so the queue itself never rejects. The
cooperative interleaving is embedded as a small-step relation on a queue
state: an admission step moves the first pending item into the running set when
a slot is free, and a finish step completes any running item, recording the
worker's result in the succeeded or failed bucket. The worker is embedded
as a function of the item and its submission index (processFn(item, index)). -/

structure QueueState (T R : Type) where
  pending : List (Nat × T)
  running : List (Nat × T)
  succeeded : List ((Nat × T) × R)
  failed : List ((Nat × T) × JsError)
  deriving DecidableEq, Repr

/-- The initial queue state: all items pending with their submission
indices, nothing running, empty buckets. -/
def initQueueState {T R : Type} (items : List T) : QueueState T R :=
  ⟨items.enum, [], [], []⟩

/-- Remove one occurrence of an element from a list (the completed worker
leaves the running set). -/
def removeOne {A : Type} [DecidableEq A] : List A → A → List A
  | [], _ => []
  | x :: rest, a => if x = a then rest else x :: removeOne rest a

/-- processQueue has returned: no pending and no running item. -/
def QueueFinal {T R : Type} (st : QueueState T R) : Prop :=
  st.pending = [] ∧ st.running = []

/-- One scheduler step of the limited queue. -/
inductive QueueStep {T R : Type} [DecidableEq T]
    (w : T → Nat → Except JsError R) (c : Nat) :
    QueueState T R → QueueState T R → Prop
  | admitNext (st : QueueState T R) (p : Nat × T) (rest : List (Nat × T)) :
      st.pending = p :: rest →
      st.running.length < c →
      QueueStep w c st ⟨rest, st.running ++ [p], st.succeeded, st.failed⟩
  | finishOk (st : QueueState T R) (p : Nat × T) (r : R) :
      p ∈ st.running →
      w p.2 p.1 = Except.ok r →
      QueueStep w c st
        ⟨st.pending, removeOne st.running p, st.succeeded ++ [(p, r)], st.failed⟩
  | finishErr (st : QueueState T R) (p : Nat × T) (e : JsError) :
      p ∈ st.running →
      w p.2 p.1 = Except.error e →
      QueueStep w c st
        ⟨st.pending, removeOne st.running p, st.succeeded, st.failed ++ [(p, e)]⟩

/-- Reachability under the queue's step relation. -/
inductive QueueReach {T R : Type} [DecidableEq T]
    (w : T → Nat → Except JsError R) (c : Nat) :
    QueueState T R → QueueState T R → Prop
  | refl (st : QueueState T R) : QueueReach w c st st
  | head {s t u : QueueState T R} :
      QueueStep w c s t → QueueReach w c t u → QueueReach w c s u

/-- The multiset of submitted entries a state still accounts for: pending,
running, and the items of both outcome buckets. -/
def queueEntries {T R : Type} (st : QueueState T R) : Multiset (Nat × T) :=
  (st.pending : Multiset (Nat × T)) + (st.running : Multiset (Nat × T))
    + (st.succeeded.map Prod.fst : Multiset (Nat × T))
    + (st.failed.map Prod.fst : Multiset (Nat × T))

/-! ### Caption parser (src/core/parser.js)

parseVTT is the line-based VTT-to-plain-text parser; parseVTTWithTimestamps
extracts cues with their start/end timecodes; the SRT branch of
convertToPlainText deduplicates the cue texts an external parser (subsrt)
returns. The regex replaces of the source are embedded as the scanning
functions below. -/

/-- A character matched by the [a-z] class under the i flag of the voice-tag
regex. -/
def isTagLetter (c : Char) : Bool :=
  (97 ≤ c.toNat && c.toNat ≤ 122) || (65 ≤ c.toNat && c.toNat ≤ 90)

/-- Remove every word-level timing tag, the regex
<dd:dd:dd.ddd> with d a digit, scanning left to right. -/
def stripTimingTags : List Char → List Char
  | [] => []
  | '<' :: a :: b :: ':' :: c :: d :: ':' :: e :: f :: '.' :: g :: h :: i :: '>' :: rest =>
    if a.isDigit && b.isDigit && c.isDigit && d.isDigit && e.isDigit
        && f.isDigit && g.isDigit && h.isDigit && i.isDigit then
      stripTimingTags rest
    else
      '<' :: stripTimingTags (a :: b :: ':' :: c :: d :: ':' :: e :: f :: '.' :: g :: h :: i :: '>' :: rest)
  | c :: rest => c :: stripTimingTags rest

/-- Remove every voice/styling tag, the regex <letter> or </letter> with a
single ASCII letter (case-insensitive), scanning left to right. -/
def stripVoiceTags : List Char → List Char
  | [] => []
  | '<' :: '/' :: c :: '>' :: rest =>
    if isTagLetter c then stripVoiceTags rest
    else '<' :: stripVoiceTags ('/' :: c :: '>' :: rest)
  | '<' :: c :: '>' :: rest =>
    if isTagLetter c then stripVoiceTags rest
    else '<' :: stripVoiceTags (c :: '>' :: rest)
  | c :: rest => c :: stripVoiceTags rest

/-- The text clean-up parseVTT and parseVTTWithTimestamps apply to a cue
text line: strip timing tags, strip voice tags, collapse whitespace runs,
trim. -/
def cleanCueText (l : List Char) : List Char :=
  trimChars (collapseWs (stripVoiceTags (stripTimingTags l)))

/-- Whether a trimmed line is skipped by parseVTT: empty, WEBVTT header,
metadata, or a cue timing line. -/
def isVttSkippedLine (line : List Char) : Bool :=
  line.isEmpty || leadsWith "WEBVTT".data line || hasSeg "Kind:".data line
    || hasSeg "Language:".data line || hasSeg "-->".data line

/-- The retained text lines of parseVTT: previousText is the text of the
last retained line, duplicates of it are dropped. -/
def parseVTTGo (previousText : List Char) : List (List Char) → List (List Char)
  | [] => []
  | rawLine :: rest =>
    let line := trimChars rawLine
    if isVttSkippedLine line then parseVTTGo previousText rest
    else
      let text := cleanCueText line
      if text ≠ [] ∧ text ≠ previousText then text :: parseVTTGo text rest
      else parseVTTGo previousText rest

/-- parseVTT from src/core/parser.js: line-based VTT parsing with
deduplication of consecutive retained texts, joined by newlines. -/
def parseVTT (content : String) : String :=
  joinLines (parseVTTGo [] (splitLines content))

/-- The deduplicating text-extraction loop of the SRT branch of
convertToPlainText: captions without text are skipped, a trimmed text equal
to the previously retained one is dropped. -/
def srtDedupGo (previousText : List Char) : List String → List (List Char)
  | [] => []
  | t :: rest =>
    if t = "" then srtDedupGo previousText rest
    else
      let text := trimChars t.data
      if text ≠ [] ∧ text ≠ previousText then text :: srtDedupGo text rest
      else srtDedupGo previousText rest

/-- The SRT branch of convertToPlainText applied to the texts of the
captions subsrt returned: deduplicate, then join with newlines. -/
def srtTextsToPlain (texts : List String) : String :=
  joinLines (srtDedupGo [] texts)

/-- Read one HH:MM:SS.mmm timecode from the head of the list, returning it
with the remaining characters. -/
def takeTimecode : List Char → Option (String × List Char)
  | a :: b :: ':' :: c :: d :: ':' :: e :: f :: '.' :: g :: h :: i :: rest =>
    if a.isDigit && b.isDigit && c.isDigit && d.isDigit && e.isDigit
        && f.isDigit && g.isDigit && h.isDigit && i.isDigit then
      some (String.mk [a, b, ':', c, d, ':', e, f, '.', g, h, i], rest)
    else none
  | _ => none

/-- The cue timing regex of parseVTTWithTimestamps, anchored at the start of
the (trimmed) line: timecode, optional whitespace, the arrow, optional
whitespace, timecode; trailing characters are ignored. -/
def matchTimestampLine (l : List Char) : Option (String × String) :=
  match takeTimecode l with
  | none => none
  | some (t1, r1) =>
    match r1.dropWhile Char.isWhitespace with
    | '-' :: '-' :: '>' :: r2 =>
      match takeTimecode (r2.dropWhile Char.isWhitespace) with
      | some (t2, _) => some (t1, t2)
      | none => none
    | _ => none

/-- A caption cue of parseVTTWithTimestamps; the source's end field is named
endTime because end is reserved in Lean. -/
structure Caption where
  start : String
  endTime : String
  text : String
  deriving DecidableEq, Repr

/-- The loop state of parseVTTWithTimestamps: pushed captions, the caption
being filled, and the text of the last pushed caption. -/
structure VttState where
  captions : List Caption
  current : Option Caption
  previousText : String
  deriving DecidableEq, Repr

/-- A line skipped as header/metadata by parseVTTWithTimestamps. -/
def isVttHeaderLine (line : List Char) : Bool :=
  leadsWith "WEBVTT".data line || hasSeg "Kind:".data line
    || hasSeg "Language:".data line

/-- Push the current caption if it has text different from the last pushed
text (the save-previous-caption block of parseVTTWithTimestamps). -/
def vttFlushCurrent (st : VttState) : VttState :=
  match st.current with
  | none => st
  | some c =>
    if c.text ≠ "" ∧ c.text ≠ st.previousText then
      ⟨st.captions ++ [c], st.current, c.text⟩
    else st

/-- One line of the parseVTTWithTimestamps loop. -/
def vttTsStep (st : VttState) (rawLine : List Char) : VttState :=
  let line := trimChars rawLine
  if isVttHeaderLine line then st
  else
    match matchTimestampLine line with
    | some (t1, t2) =>
      let st2 := vttFlushCurrent st
      ⟨st2.captions, some ⟨t1, t2, ""⟩, st2.previousText⟩
    | none =>
      match st.current with
      | none => st
      | some c =>
        if line.isEmpty then st
        else
          let text := cleanCueText line
          if text ≠ [] then
            ⟨st.captions, some ⟨c.start, c.endTime, String.mk text⟩, st.previousText⟩
          else st

/-- parseVTTWithTimestamps from src/core/parser.js: fold the line loop over
the lines, then push the last caption under the same dedup condition. -/
def parseVTTWithTimestamps (content : String) : List Caption :=
  let final := (splitLines content).foldl vttTsStep ⟨[], none, ""⟩
  (vttFlushCurrent final).captions

/-! ### Filesystem model and convertToPlainText (src/core/parser.js)

The filesystem is an association list from paths to contents; the external
subsrt library of the SRT branch is a parameter producing the caption texts
or a parse failure, so the theorems hold for every behaviour of it. -/

def FileSys : Type := List (String × String)

/-- readFile: the content at the path, if the file exists. -/
def fsRead : FileSys → String → Option String
  | [], _ => none
  | (q, v) :: rest, p => if q = p then some v else fsRead rest p

/-- writeFile: replace the content at the path, or create the file. -/
def fsWrite : FileSys → String → String → FileSys
  | [], p, v => [(p, v)]
  | (q, w) :: rest, p, v =>
    if q = p then (q, v) :: rest else (q, w) :: fsWrite rest p v

/-- deleteFile: remove the file at the path if it exists. -/
def fsDelete (fs : FileSys) (p : String) : FileSys :=
  fs.filter (fun e => e.1 ≠ p)

/-- convertToPlainText from src/core/parser.js: read the subtitle file,
parse it (the line-based VTT parser for .vtt files, the external subsrt
parser plus the dedup loop otherwise), write the plain text, then delete
the original if requested. A subsrt failure raises a ParseError carrying
the subtitle path; the outer catch wraps any other failure (here only a
read failure) in a ParseError too. Returns the resulting filesystem and
the outcome. -/
def convertToPlainText (srtParse : String → Except String (List String))
    (fs : FileSys) (subtitlePath outputPath : String) (deleteOriginal : Bool) :
    FileSys × Except JsError String :=
  match fsRead fs subtitlePath with
  | none =>
    (fs, Except.error
      (mkParseError "Conversion failed: Failed to read file: missing" subtitlePath))
  | some content =>
    if strEndsWithSuffix subtitlePath ".vtt" then
      let plainText := parseVTT content
      let fs1 := fsWrite fs outputPath plainText
      let fs2 := if deleteOriginal then fsDelete fs1 subtitlePath else fs1
      (fs2, Except.ok plainText)
    else
      match srtParse content with
      | Except.error m =>
        (fs, Except.error
          (mkParseError ("Failed to parse subtitle file: " ++ m) subtitlePath))
      | Except.ok texts =>
        let plainText := srtTextsToPlain texts
        let fs1 := fsWrite fs outputPath plainText
        let fs2 := if deleteOriginal then fsDelete fs1 subtitlePath else fs1
        (fs2, Except.ok plainText)

/-! ### Download orchestrator, per-video operation (src/core/downloader.js)

downloadVideoSubtitle is embedded through its fallible steps: the outcome of
the fetch step (executeYtDlp plus findSubtitleFiles) and of the conversion
loop are parameters; the function's own control flow (the zero-caption-files
check and the catch block that classifies errors into DownloadError) is
translated from the source. -/

/-- The message of the zero-caption-files DownloadError. -/
def noSubtitlesMsg : String := "No subtitles available for this video"

/-- The catch block of downloadVideoSubtitle: wrap the error in a
DownloadError, non-retryable when its message contains one of the known
terminal markers (case-sensitive includes, as the source). -/
def wrapDownloadCatch (e : JsError) (videoId : String) : JsError :=
  if strContains e.message "No subtitles" || strContains e.message "not available"
      || strContains e.message "private" || strContains e.message "deleted" then
    mkDownloadError e.message videoId false
  else
    mkDownloadError e.message videoId true

/-- downloadVideoSubtitle from src/core/downloader.js, parameterized by the
fetch outcome and the conversion step: when the fetch yields zero subtitle
files it throws the non-retryable no-subtitles DownloadError, which the
function's own catch block rewraps (preserving message and flag). -/
def downloadVideoSubtitle {R : Type} (videoId : String)
    (fetch : Except JsError (List String))
    (convert : List String → Except JsError R) : Except JsError R :=
  match fetch with
  | Except.error e => Except.error (wrapDownloadCatch e videoId)
  | Except.ok subtitleFiles =>
    if subtitleFiles.length = 0 then
      Except.error
        (wrapDownloadCatch (mkDownloadError noSubtitlesMsg videoId false) videoId)
    else
      match convert subtitleFiles with
      | Except.ok r => Except.ok r
      | Except.error e => Except.error (wrapDownloadCatch e videoId)

/-! ### Progress tracker (src/lib/progress.js)

The ora spinners are display-only; the observable state is the counter
block and the per-video map with each entry's title and status. -/

inductive VideoStatus
  | processing
  | succeeded
  | failed
  deriving DecidableEq, Repr

structure SpinnerEntry where
  title : String
  status : VideoStatus
  deriving DecidableEq, Repr

structure ProgressState where
  total : Nat
  completed : Nat
  succeeded : Nat
  failed : Nat
  videoSpinners : List (String × SpinnerEntry)
  deriving DecidableEq, Repr

/-- JavaScript Map.get. -/
def mapGet : List (String × SpinnerEntry) → String → Option SpinnerEntry
  | [], _ => none
  | (k, v) :: rest, key => if k = key then some v else mapGet rest key

/-- JavaScript Map.set: update in place (keeping insertion order) or
append. -/
def mapSet : List (String × SpinnerEntry) → String → SpinnerEntry →
    List (String × SpinnerEntry)
  | [], key, v => [(key, v)]
  | (k, w) :: rest, key, v =>
    if k = key then (k, v) :: rest else (k, w) :: mapSet rest key v

namespace ProgressTracker

/-- The constructor state of ProgressTracker. -/
def init : ProgressState := ⟨0, 0, 0, 0, []⟩

/-- start(totalVideos). -/
def start (st : ProgressState) (totalVideos : Nat) : ProgressState :=
  { st with total := totalVideos }

/-- startVideo(videoId, title): register the spinner entry as processing. -/
def startVideo (st : ProgressState) (videoId title : String) : ProgressState :=
  let sp := mapSet st.videoSpinners videoId ⟨title, VideoStatus.processing⟩
  { st with videoSpinners := sp }

/-- succeedVideo(videoId, title): the counters are incremented
unconditionally; the spinner entry is updated only if the id is known. -/
def succeedVideo (st : ProgressState) (videoId title : String) : ProgressState :=
  let st2 := { st with completed := st.completed + 1, succeeded := st.succeeded + 1 }
  match mapGet st2.videoSpinners videoId with
  | some v =>
    let sp := mapSet st2.videoSpinners videoId ⟨v.title, VideoStatus.succeeded⟩
    { st2 with videoSpinners := sp }
  | none => st2

/-- failVideo(videoId, title, errorMessage): the counters are incremented
unconditionally; the spinner entry is updated only if the id is known. -/
def failVideo (st : ProgressState) (videoId title errorMessage : String) :
    ProgressState :=
  let st2 := { st with completed := st.completed + 1, failed := st.failed + 1 }
  match mapGet st2.videoSpinners videoId with
  | some v =>
    let sp := mapSet st2.videoSpinners videoId ⟨v.title, VideoStatus.failed⟩
    { st2 with videoSpinners := sp }
  | none => st2

end ProgressTracker

/-! ### Statistics collector (src/lib/stats.js, src/utils/file.js)

Time is explicit: methods that read Date.now() take the current time as a
parameter. The chalk colouring is display-only markup and is omitted from
the line strings. JavaScript floating-point division and toFixed/round are
modelled with exact natural rounding; no claim below depends on the digits
these produce. -/

structure VideoCounts where
  total : Nat
  succeeded : Nat
  failed : Nat
  deriving DecidableEq, Repr

structure FileCounts where
  count : Nat
  totalSize : Nat
  deriving DecidableEq, Repr

/-- One entry of the errors list: {videoId, title, error: error.message}. -/
structure FailureEntry where
  videoId : String
  title : String
  error : String
  deriving DecidableEq, Repr

structure StatsState where
  startTime : Nat
  endTime : Option Nat
  videos : VideoCounts
  files : FileCounts
  /-- The languages Set, as its insertion-ordered elements. -/
  languages : List String
  errors : List FailureEntry
  deriving DecidableEq, Repr

/-- formatDuration from src/utils/file.js (integer arithmetic is exact for
the floor operations the source performs). -/
def formatDuration (ms : Nat) : String :=
  let seconds := ms / 1000
  let minutes := seconds / 60
  let hours := minutes / 60
  if hours > 0 then
    toString hours ++ "h " ++ toString (minutes % 60) ++ "m " ++ toString (seconds % 60) ++ "s"
  else if minutes > 0 then
    toString minutes ++ "m " ++ toString (seconds % 60) ++ "s"
  else
    toString seconds ++ "s"

/-- Round num/den to two decimals (half up) and print with two digits:
models JavaScript toFixed(2). -/
def toFixedTwo (num den : Nat) : String :=
  let scaled := (num * 200 + den) / (2 * den)
  toString (scaled / 100) ++ "." ++ (if scaled % 100 < 10 then "0" else "") ++ toString (scaled % 100)

/-- formatFileSize from src/utils/file.js: floor(log_1024 bytes) selects the
unit (an index past the units array prints undefined, as in JavaScript). -/
def formatFileSize (bytes : Nat) : String :=
  if bytes = 0 then "0 B"
  else
    let i := Nat.log 1024 bytes
    let unit := (["B", "KB", "MB", "GB"].get? i).getD "undefined"
    toFixedTwo bytes (1024 ^ i) ++ " " ++ unit

namespace StatsCollector

/-- reset(), with the construction time explicit. -/
def reset (now : Nat) : StatsState :=
  ⟨now, none, ⟨0, 0, 0⟩, ⟨0, 0⟩, [], []⟩

/-- start(totalVideos). -/
def start (st : StatsState) (now totalVideos : Nat) : StatsState :=
  { st with startTime := now, videos := { st.videos with total := totalVideos } }

/-- Set insertion for the languages set (JavaScript Set.add keeps insertion
order and ignores duplicates). -/
def addLanguage (langs : List String) (lang : String) : List String :=
  if lang ∈ langs then langs else langs ++ [lang]

/-- recordSuccess(videoId, title, fileSize, languages). -/
def recordSuccess (st : StatsState) (videoId title : String) (fileSize : Nat)
    (languages : List String) : StatsState :=
  { st with
    videos := { st.videos with succeeded := st.videos.succeeded + 1 },
    files := ⟨st.files.count + 1, st.files.totalSize + fileSize⟩,
    languages := languages.foldl addLanguage st.languages }

/-- recordFailure(videoId, title, error): the full failure entry is kept. -/
def recordFailure (st : StatsState) (videoId title : String) (error : JsError) :
    StatsState :=
  { st with
    videos := { st.videos with failed := st.videos.failed + 1 },
    errors := st.errors ++ [⟨videoId, title, error.message⟩] }

/-- end(), named endRun because end is reserved in Lean. -/
def endRun (st : StatsState) (now : Nat) : StatsState :=
  { st with endTime := some now }

/-- getElapsedTime(): endTime when set, else the current time. -/
def getElapsedTime (st : StatsState) (now : Nat) : Nat :=
  (st.endTime.getD now) - st.startTime

/-- getAverageTime(): elapsed over completed, 0 when nothing completed. -/
def getAverageTime (st : StatsState) (now : Nat) : Nat :=
  let completed := st.videos.succeeded + st.videos.failed
  if completed = 0 then 0 else getElapsedTime st now / completed

/-- getSuccessRate(): Math.round(succeeded/total*100), 0 when total is 0. -/
def getSuccessRate (st : StatsState) : Nat :=
  if st.videos.total = 0 then 0
  else (st.videos.succeeded * 200 + st.videos.total) / (2 * st.videos.total)

/-- The separator line of the report (its 56 box-drawing characters built
by replication). -/
def boxLine : String :=
  "╠" ++ String.mk (List.replicate 56 '═') ++ "╣"

/-- The itemized line of one failure in the report. -/
def reportErrorLine (e : FailureEntry) : String :=
  "  • " ++ e.title ++ ": " ++ e.error

/-- generateReport() as its list of lines, translated push by push from the
source; the itemized failure list appears only when there are between 1
and 5 failures, a count-only line when there are more than 5. -/
def generateReportLines (st : StatsState) (now : Nat) : List String :=
  let elapsed := getElapsedTime st now
  let avgTime := getAverageTime st now
  let successRate := getSuccessRate st
  let lines1 : List String :=
    [ "", boxLine, "📊 DOWNLOAD SUMMARY", boxLine,
      "Total Videos: " ++ toString st.videos.total,
      "✓ Succeeded: " ++ toString st.videos.succeeded ]
  let lines2 := lines1 ++
    (if st.videos.failed > 0 then ["✗ Failed: " ++ toString st.videos.failed] else [])
  let lines3 := lines2 ++
    [ "Success Rate: " ++ toString successRate ++ "%",
      "Total Time: " ++ formatDuration elapsed,
      "Avg Time/Video: " ++ formatDuration avgTime ]
  let lines4 := lines3 ++
    (if st.files.totalSize > 0 then ["Total Size: " ++ formatFileSize st.files.totalSize] else [])
  let lines5 := lines4 ++
    (if st.languages.length > 0 then ["Languages: " ++ String.intercalate ", " st.languages] else [])
  let lines6 := lines5 ++ [boxLine]
  lines6 ++
    (if 0 < st.errors.length ∧ st.errors.length ≤ 5 then
      ["", "Failed Videos:"] ++ st.errors.map reportErrorLine
    else if 5 < st.errors.length then
      ["", toString st.errors.length ++ " videos failed (use --verbose for details)"]
    else [])

/-- generateReport() joined into the report string. -/
def generateReport (st : StatsState) (now : Nat) : String :=
  String.intercalate "\n" (generateReportLines st now)

/-- The part of the report before the failure section; it never reads the
errors list, so no itemized per-failure line can occur in it. -/
def reportCommon (st : StatsState) (now : Nat) : List String :=
  let elapsed := getElapsedTime st now
  let avgTime := getAverageTime st now
  let successRate := getSuccessRate st
  let lines1 : List String :=
    [ "", boxLine, "📊 DOWNLOAD SUMMARY", boxLine,
      "Total Videos: " ++ toString st.videos.total,
      "✓ Succeeded: " ++ toString st.videos.succeeded ]
  let lines2 := lines1 ++
    (if st.videos.failed > 0 then ["✗ Failed: " ++ toString st.videos.failed] else [])
  let lines3 := lines2 ++
    [ "Success Rate: " ++ toString successRate ++ "%",
      "Total Time: " ++ formatDuration elapsed,
      "Avg Time/Video: " ++ formatDuration avgTime ]
  let lines4 := lines3 ++
    (if st.files.totalSize > 0 then ["Total Size: " ++ formatFileSize st.files.totalSize] else [])
  let lines5 := lines4 ++
    (if st.languages.length > 0 then ["Languages: " ++ String.intercalate ", " st.languages] else [])
  lines5 ++ [boxLine]

/-- The snapshot getStats() returns. -/
structure StatsSnapshot where
  videos : VideoCounts
  files : FileCounts
  languages : List String
  elapsed : Nat
  averageTime : Nat
  successRate : Nat
  errors : List FailureEntry
  deriving DecidableEq, Repr

/-- getStats(): the full statistics object, errors list included in full. -/
def getStats (st : StatsState) (now : Nat) : StatsSnapshot :=
  ⟨st.videos, st.files, st.languages, getElapsedTime st now,
    getAverageTime st now, getSuccessRate st, st.errors⟩

end StatsCollector

/-! ### Concrete instances used by witnesses and counterexamples -/

/-- An error with a retryable network message and no explicit flag. -/
def timeoutErr : JsError := { message := "ETIMEDOUT" }

/-- An operation failing every invocation with a retryable error. -/
def alwaysTimeoutOp : Nat → Except JsError Nat :=
  fun _ => Except.error timeoutErr

/-- An error with a non-retryable message and no explicit flag. -/
def http404Err : JsError := { message := "HTTP 404" }

/-- An operation failing every invocation with a non-retryable error. -/
def http404Op : Nat → Except JsError Nat :=
  fun _ => Except.error http404Err

/-- A DownloadError explicitly flagged retryable whose message matches the
non-retryable video-private pattern. -/
def flaggedPrivateErr : JsError := mkDownloadError "video is private" "v1" true

/-- A DownloadError explicitly flagged retryable whose message matches no
pattern at all. -/
def flaggedOtherErr : JsError := mkDownloadError "weird failure" "v2" true

/-- A VTT container whose cue texts are Hello, Hello, World (the second a
duplicate of the first). -/
def vttRoundTripDoc : String :=
  "WEBVTT\nKind: captions\nLanguage: en\n\n00:00:00.000 --> 00:00:01.000\nHello\n\n00:00:01.000 --> 00:00:02.000\nHello\n\n00:00:02.000 --> 00:00:03.000\nWorld\n"

/-- A VTT container with one cue whose text spans two lines. -/
def vttMultilineDoc : String :=
  "WEBVTT\n\n00:00:00.000 --> 00:00:01.000\nHello\nWorld\n"

/-- A parser state holding an open cue that already has text. -/
def vttStepExampleState : VttState :=
  ⟨[], some ⟨"00:00:00.000", "00:00:01.000", "Hello"⟩, ""⟩

/-- A fresh progress tracker after start(1), with no video started. -/
def progressAfterStart : ProgressState :=
  ProgressTracker.start ProgressTracker.init 1

/-- A filesystem holding one SRT file. -/
def badSrtFs : FileSys := [("a.srt", "garbage")]

/-- An external SRT parser that rejects every content. -/
def failingSrtParse : String → Except String (List String) :=
  fun _ => Except.error "bad"

/-! ### Helper lemmas -/

/-- Removing one occurrence of a member splits the list's multiset. -/
lemma removeOne_coe {A : Type} [DecidableEq A] {l : List A} {a : A}
    (h : a ∈ l) : (↑l : Multiset A) = {a} + ↑(removeOne l a) := by
  induction l with
  | nil => cases h
  | cons x rest ih =>
    by_cases hx : x = a
    · subst hx
      simp [removeOne, Multiset.singleton_add]
    · have ha : a ∈ rest := by
        cases h with
        | head => exact absurd rfl hx
        | tail _ hm => exact hm
      rw [show removeOne (x :: rest) a = x :: removeOne rest a by
        simp [removeOne, hx]]
      rw [← Multiset.cons_coe, ← Multiset.cons_coe, ih ha,
        Multiset.singleton_add, Multiset.singleton_add, Multiset.cons_swap]

/-- Removing one occurrence of a member shortens the list by one. -/
lemma removeOne_length {A : Type} [DecidableEq A] {l : List A} {a : A}
    (h : a ∈ l) : (removeOne l a).length + 1 = l.length := by
  induction l with
  | nil => cases h
  | cons x rest ih =>
    by_cases hx : x = a
    · simp [removeOne, hx]
    · have ha : a ∈ rest := by
        cases h with
        | head => exact absurd rfl hx
        | tail _ hm => exact hm
      simp only [removeOne, if_neg hx, List.length_cons]
      rw [← ih ha]

/-- Every queue step preserves the multiset of submitted entries. -/
lemma queueEntries_eq_of_step {T R : Type} [DecidableEq T]
    {w : T → Nat → Except JsError R} {c : Nat} {s t : QueueState T R}
    (h : QueueStep w c s t) : queueEntries t = queueEntries s := by
  cases h with
  | admitNext p rest hpend hlen =>
    unfold queueEntries
    rw [hpend]
    rw [show ((s.running ++ [p] : List (Nat × T)) : Multiset (Nat × T))
          = ↑s.running + {p} by rw [← Multiset.coe_singleton, Multiset.coe_add]]
    rw [show ((p :: rest : List (Nat × T)) : Multiset (Nat × T))
          = {p} + ↑rest by rw [Multiset.singleton_add, Multiset.cons_coe]]
    abel
  | finishOk p r hp hw =>
    unfold queueEntries
    rw [List.map_append]
    rw [show (List.map Prod.fst [(p, r)]) = [p] by simp]
    rw [show ((List.map Prod.fst s.succeeded ++ [p] : List (Nat × T)) : Multiset (Nat × T))
          = ↑(List.map Prod.fst s.succeeded) + {p} by
        rw [← Multiset.coe_singleton, Multiset.coe_add]]
    conv_rhs => rw [removeOne_coe hp]
    abel
  | finishErr p e hp hw =>
    unfold queueEntries
    rw [List.map_append]
    rw [show (List.map Prod.fst [(p, e)]) = [p] by simp]
    rw [show ((List.map Prod.fst s.failed ++ [p] : List (Nat × T)) : Multiset (Nat × T))
          = ↑(List.map Prod.fst s.failed) + {p} by
        rw [← Multiset.coe_singleton, Multiset.coe_add]]
    conv_rhs => rw [removeOne_coe hp]
    abel

/-- The multiset of entries is invariant along any run of the queue. -/
lemma queueEntries_eq_of_reach {T R : Type} [DecidableEq T]
    {w : T → Nat → Except JsError R} {c : Nat} {s t : QueueState T R}
    (h : QueueReach w c s t) : queueEntries t = queueEntries s := by
  induction h with
  | refl st => rfl
  | head hstep _ ih => rw [ih, queueEntries_eq_of_step hstep]

/-- With at least one slot, every state drains to a final state: the queue
never gets stuck and a worker failure only fills the failed bucket. -/
lemma queue_run_exists {T R : Type} [DecidableEq T]
    (w : T → Nat → Except JsError R) (c : Nat) (hc : 1 ≤ c) :
    ∀ (n : Nat) (st : QueueState T R),
      2 * st.pending.length + st.running.length ≤ n →
      ∃ st2, QueueReach w c st st2 ∧ QueueFinal st2 := by
  intro n
  induction n with
  | zero =>
    intro st hm
    have hp : st.pending = [] := List.length_eq_zero.mp (by omega)
    have hr : st.running = [] := List.length_eq_zero.mp (by omega)
    exact ⟨st, QueueReach.refl st, hp, hr⟩
  | succ n ih =>
    intro st hm
    cases hrun : st.running with
    | cons p rest =>
      have hp : p ∈ st.running := by rw [hrun]; exact List.mem_cons_self p rest
      have hlen : (removeOne st.running p).length + 1 = st.running.length :=
        removeOne_length hp
      cases hw : w p.2 p.1 with
      | ok r =>
        obtain ⟨st2, hreach, hfin⟩ :=
          ih ⟨st.pending, removeOne st.running p,
              st.succeeded ++ [(p, r)], st.failed⟩ (by simp; omega)
        exact ⟨st2, QueueReach.head (QueueStep.finishOk st p r hp hw) hreach, hfin⟩
      | error e =>
        obtain ⟨st2, hreach, hfin⟩ :=
          ih ⟨st.pending, removeOne st.running p,
              st.succeeded, st.failed ++ [(p, e)]⟩ (by simp; omega)
        exact ⟨st2, QueueReach.head (QueueStep.finishErr st p e hp hw) hreach, hfin⟩
    | nil =>
      cases hpend : st.pending with
      | nil => exact ⟨st, QueueReach.refl st, hpend, hrun⟩
      | cons p rest =>
        have hfree : st.running.length < c := by rw [hrun]; simpa using hc
        obtain ⟨st2, hreach, hfin⟩ :=
          ih ⟨rest, st.running ++ [p], st.succeeded, st.failed⟩ (by
            simp only [List.length_append, List.length_cons]
            rw [hrun] at hm ⊢
            rw [hpend] at hm
            simp at hm ⊢
            omega)
        exact ⟨st2,
          QueueReach.head (QueueStep.admitNext st p rest hpend hfree) hreach, hfin⟩

/-- A non-retryable error on the first invocation makes withRetry rethrow
it after exactly one invocation and no delay. -/
lemma withRetry_fail_fast {R : Type} (fn : Nat → Except JsError R)
    (p : RetryParams) (e : JsError) (h0 : fn 0 = Except.error e)
    (hnr : isRetryableError e = false) :
    withRetry fn p = ⟨Except.error e, 1, []⟩ := by
  unfold withRetry
  rw [withRetryGo.eq_1, h0]
  simp [hnr]

/-- The delays of the retry loop are exactly the backoff formula applied to
the successive retry numbers. -/
lemma withRetryGo_delays_shape {R : Type} (fn : Nat → Except JsError R)
    (p : RetryParams) :
    ∀ (fuel attempt : Nat), ∃ k,
      (withRetryGo fn p attempt fuel).delays =
        (List.range k).map (fun i => retryDelay p (attempt + 1 + i)) := by
  intro fuel
  induction fuel with
  | zero =>
    intro attempt
    refine ⟨0, ?_⟩
    rw [withRetryGo.eq_1]
    cases hfn : fn attempt with
    | ok r => simp
    | error e =>
      by_cases hr : isRetryableError e = false
      · simp [hr]
      · by_cases hmax : p.maxRetries ≤ attempt
        · simp [hr, hmax]
        · simp [hr, hmax]
  | succ fuel ih =>
    intro attempt
    rw [withRetryGo.eq_1]
    cases hfn : fn attempt with
    | ok r => exact ⟨0, by simp⟩
    | error e =>
      by_cases hr : isRetryableError e = false
      · exact ⟨0, by simp [hr]⟩
      · by_cases hmax : p.maxRetries ≤ attempt
        · exact ⟨0, by simp [hr, hmax]⟩
        · obtain ⟨k, hk⟩ := ih (attempt + 1)
          refine ⟨k + 1, ?_⟩
          simp only [if_neg hr, if_neg hmax]
          simp only [hk, List.range_succ_eq_map, List.map_cons, List.map_map]
          refine congrArg₂ List.cons ?_ ?_
          · show retryDelay p (attempt + 1) = retryDelay p (attempt + 1 + 0)
            congr 1
          · apply List.map_congr_left
            intro a _
            show retryDelay p (attempt + 1 + 1 + a)
              = retryDelay p (attempt + 1 + Nat.succ a)
            congr 1
            omega

/-- The retained lines of parseVTT, prefixed with the previous retained
text, always form a chain of pairwise-distinct neighbours. -/
lemma parseVTTGo_chain (lines : List (List Char)) :
    ∀ prev : List Char,
      List.Chain' (fun a b => a ≠ b) (prev :: parseVTTGo prev lines) := by
  induction lines with
  | nil => intro prev; simp [parseVTTGo]
  | cons rawLine rest ih =>
    intro prev
    by_cases hskip : isVttSkippedLine (trimChars rawLine) = true
    · rw [show parseVTTGo prev (rawLine :: rest) = parseVTTGo prev rest by
        rw [parseVTTGo]; simp [hskip]]
      exact ih prev
    · simp only [Bool.not_eq_true] at hskip
      by_cases hkeep : cleanCueText (trimChars rawLine) ≠ [] ∧
          cleanCueText (trimChars rawLine) ≠ prev
      · rw [show parseVTTGo prev (rawLine :: rest)
              = cleanCueText (trimChars rawLine)
                :: parseVTTGo (cleanCueText (trimChars rawLine)) rest by
          rw [parseVTTGo]; simp [hskip, hkeep]]
        rw [List.chain'_cons]
        exact ⟨Ne.symm hkeep.2, ih (cleanCueText (trimChars rawLine))⟩
      · rw [show parseVTTGo prev (rawLine :: rest) = parseVTTGo prev rest by
          rw [parseVTTGo]; simp [hskip, hkeep]]
        exact ih prev

/-- The retained cue texts of the SRT dedup loop, prefixed with the
previous retained text, always form a chain of pairwise-distinct
neighbours. -/
lemma srtDedupGo_chain (texts : List String) :
    ∀ prev : List Char,
      List.Chain' (fun a b => a ≠ b) (prev :: srtDedupGo prev texts) := by
  induction texts with
  | nil => intro prev; simp [srtDedupGo]
  | cons t rest ih =>
    intro prev
    by_cases hempty : t = ""
    · rw [show srtDedupGo prev (t :: rest) = srtDedupGo prev rest by
        rw [srtDedupGo]; simp [hempty]]
      exact ih prev
    · by_cases hkeep : trimChars t.data ≠ [] ∧ trimChars t.data ≠ prev
      · rw [show srtDedupGo prev (t :: rest)
              = trimChars t.data :: srtDedupGo (trimChars t.data) rest by
          rw [srtDedupGo]; simp [hempty, hkeep]]
        rw [List.chain'_cons]
        exact ⟨Ne.symm hkeep.2, ih (trimChars t.data)⟩
      · rw [show srtDedupGo prev (t :: rest) = srtDedupGo prev rest by
          rw [srtDedupGo]; simp [hempty, hkeep]]
        exact ih prev

/-! ### Claim theorems -/

/-- C1: for every item list, worker and concurrency, every completed run of
processQueue (a reachable state with nothing pending or running, which is
when processQueue returns) has succeeded.length + failed.length equal to
items.length with the two buckets together holding exactly the submitted
items, one entry each; and for every concurrency of at least 1 a completed
run exists: a throwing worker only fills the failed bucket (the finishErr
step) and never makes the run reject or skip items. -/
theorem processQueue_outcome_complete {T R : Type} [DecidableEq T]
    (items : List T) (w : T → Nat → Except JsError R) (c : Nat) :
    (∀ st : QueueState T R,
        QueueReach w c (initQueueState items) st → QueueFinal st →
        st.succeeded.length + st.failed.length = items.length ∧
        (st.succeeded.map Prod.fst ++ st.failed.map Prod.fst).Perm items.enum) ∧
    (1 ≤ c →
      ∃ st : QueueState T R,
        QueueReach w c (initQueueState items) st ∧ QueueFinal st) := by
  constructor
  · intro st hreach hfin
    have hent := queueEntries_eq_of_reach hreach
    rw [show queueEntries (initQueueState items : QueueState T R)
          = ↑items.enum by
        unfold queueEntries initQueueState
        simp] at hent
    rw [show queueEntries st
          = ↑(st.succeeded.map Prod.fst ++ st.failed.map Prod.fst) by
        unfold queueEntries
        rw [hfin.1, hfin.2, Multiset.coe_add]
        simp] at hent
    have hperm : (st.succeeded.map Prod.fst ++ st.failed.map Prod.fst).Perm
        items.enum := Multiset.coe_eq_coe.mp hent
    refine ⟨?_, hperm⟩
    have hlen := hperm.length_eq
    simpa using hlen
  · intro hc
    exact queue_run_exists w c hc
      (2 * (initQueueState items : QueueState T R).pending.length
        + (initQueueState items : QueueState T R).running.length)
      (initQueueState items) (le_refl _)

/-- C2 counterexample: a DownloadError whose explicit flag is retryable but
whose message matches the non-retryable video-private pattern is classified
non-retryable, so the classifier does not return the flag's value. -/
theorem isRetryableError_flag_counterexample :
    flaggedPrivateErr.isRetryableFlag = some true ∧
    isRetryableError flaggedPrivateErr = false :=
  ⟨rfl, rfl⟩

/-- C2 (amended): for every error carrying an explicit flag, the classifier
returns the flag's value conjoined with the absence of a non-retryable
message pattern: the non-retryable patterns are checked before the flag, so
an explicit non-retryable flag always wins while an explicit retryable flag
is overridden by a non-retryable message match; the retryable message
patterns are never consulted when the flag is present. -/
theorem isRetryableError_explicit_flag (e : JsError) (b : Bool)
    (h : e.isRetryableFlag = some b) :
    isRetryableError e = (b && !matchesNonRetryable e.message) := by
  unfold isRetryableError
  rw [h]
  cases hm : matchesNonRetryable e.message <;> simp

/-- Witness for C2 (amended) at a flagged error with a pattern-free
message. -/
theorem isRetryableError_explicit_flag_witness :
    flaggedOtherErr.isRetryableFlag = some true ∧
    isRetryableError flaggedOtherErr =
      (true && !matchesNonRetryable flaggedOtherErr.message) :=
  ⟨rfl, isRetryableError_explicit_flag flaggedOtherErr true rfl⟩

/-- C3: an operation whose first invocation fails with an error the
classifier deems non-retryable is invoked exactly once; withRetry rethrows
that same error with no backoff delay and no further attempts. -/
theorem withRetry_nonretryable_single_invocation {R : Type}
    (fn : Nat → Except JsError R) (p : RetryParams) (e : JsError)
    (h0 : fn 0 = Except.error e) (hnr : isRetryableError e = false) :
    withRetry fn p = ⟨Except.error e, 1, []⟩ :=
  withRetry_fail_fast fn p e h0 hnr

/-- Witness for C3 at an operation failing with an HTTP 404 message. -/
theorem withRetry_nonretryable_witness :
    http404Op 0 = Except.error http404Err ∧
    isRetryableError http404Err = false ∧
    withRetry http404Op defaultRetryParams = ⟨Except.error http404Err, 1, []⟩ :=
  ⟨rfl, rfl,
    withRetry_nonretryable_single_invocation http404Op defaultRetryParams
      http404Err rfl rfl⟩

/-- C4: for every retry parameters, the delay before the n-th retry
(1-indexed) equals min(baseDelay * backoffFactor^(n-1), maxDelay); and with
the default parameters the delay sequence of an always-failing retryable
operation is exactly 1000, 2000, 4000 milliseconds. -/
theorem withRetry_delay_formula :
    (∀ (fn : Nat → Except JsError Nat) (p : RetryParams) (n : Nat),
      1 ≤ n → n - 1 < (withRetry fn p).delays.length →
      (withRetry fn p).delays[n - 1]? =
        some (min (p.baseDelay * p.backoffFactor ^ (n - 1)) p.maxDelay)) ∧
    (withRetry alwaysTimeoutOp defaultRetryParams).delays = [1000, 2000, 4000] := by
  constructor
  · intro fn p n hn h
    obtain ⟨k, hk⟩ := withRetryGo_delays_shape fn p p.maxRetries 0
    unfold withRetry at h ⊢
    rw [hk] at h ⊢
    rw [List.getElem?_map]
    have hlt : n - 1 < k := by simpa using h
    rw [List.getElem?_range hlt]
    simp only [Option.map_some']
    have harg : 0 + 1 + (n - 1) = n := by omega
    rw [harg]
    unfold retryDelay
    rfl
  · rfl

/-- C5: in both conversion paths a cue whose cleaned text equals the
immediately preceding retained cue's text is dropped, so no two adjacent
retained lines are equal; and the concrete Hello/Hello/World container
converts to the two-line string in both paths. -/
theorem caption_dedup_adjacent :
    (∀ content : String,
        List.Chain' (fun a b => a ≠ b) (parseVTTGo [] (splitLines content))) ∧
    (∀ texts : List String,
        List.Chain' (fun a b => a ≠ b) (srtDedupGo [] texts)) ∧
    parseVTT vttRoundTripDoc = "Hello\nWorld" ∧
    srtTextsToPlain ["Hello", "Hello", "World"] = "Hello\nWorld" := by
  refine ⟨?_, ?_, rfl, rfl⟩
  · intro content
    exact (parseVTTGo_chain (splitLines content) []).tail
  · intro texts
    exact (srtDedupGo_chain texts []).tail

/-- C6 counterexample: a cue with two text lines keeps only the second one;
the first line does not occur in the parsed cue text, refuting the claim
that all text lines of a cue are concatenated into it. -/
theorem vtt_timestamps_multiline_counterexample :
    (parseVTTWithTimestamps vttMultilineDoc).map Caption.text = ["World"] ∧
    strContains "World" "Hello" = false :=
  ⟨rfl, rfl⟩

/-- C6 (amended): a non-header cue-time range line opens a new cue
capturing its start and end timecodes with empty text; each following
non-blank, non-header, non-timestamp line whose cleaned text is nonempty
overwrites the cue's text, so a cue spanning several text lines retains
only the last such line, not the concatenation. -/
theorem vttTsStep_cue_semantics (st : VttState) (rawLine : List Char)
    (hhead : isVttHeaderLine (trimChars rawLine) = false) :
    (∀ t1 t2 : String,
      matchTimestampLine (trimChars rawLine) = some (t1, t2) →
      (vttTsStep st rawLine).current = some ⟨t1, t2, ""⟩) ∧
    (∀ c : Caption,
      st.current = some c →
      matchTimestampLine (trimChars rawLine) = none →
      cleanCueText (trimChars rawLine) ≠ [] →
      trimChars rawLine ≠ [] →
      (vttTsStep st rawLine).current =
        some ⟨c.start, c.endTime, String.mk (cleanCueText (trimChars rawLine))⟩) := by
  constructor
  · intro t1 t2 hts
    unfold vttTsStep
    simp [hhead, hts]
  · intro c hcur hts hclean hne
    simp [vttTsStep, hhead, hts, hcur, hclean, hne]

/-- Witness for C6 (amended): processing the text line World over a cue
holding Hello replaces the text by World. -/
theorem vttTsStep_cue_semantics_witness :
    (vttTsStep vttStepExampleState "World".data).current =
      some ⟨"00:00:00.000", "00:00:01.000", "World"⟩ :=
  (vttTsStep_cue_semantics vttStepExampleState "World".data rfl).2
    ⟨"00:00:00.000", "00:00:01.000", "Hello"⟩ rfl rfl (by decide) (by decide)

/-- C7: a fetch that completes with zero caption files makes
downloadVideoSubtitle raise the non-retryable no-subtitles DownloadError
(its own catch block preserves message and flag), the classifier confirms
it non-retryable, and withRetry performs exactly one attempt for it. -/
theorem downloadVideoSubtitle_no_subtitles_nonretryable {R : Type}
    (videoId : String) (convert : List String → Except JsError R)
    (p : RetryParams) :
    downloadVideoSubtitle videoId (Except.ok []) convert =
      Except.error (mkDownloadError noSubtitlesMsg videoId false) ∧
    isRetryableError (mkDownloadError noSubtitlesMsg videoId false) = false ∧
    withRetry (fun _ => downloadVideoSubtitle videoId (Except.ok []) convert) p =
      ⟨Except.error (mkDownloadError noSubtitlesMsg videoId false), 1, []⟩ := by
  refine ⟨rfl, rfl, ?_⟩
  exact withRetry_fail_fast _ p _ rfl rfl

/-- C8: with more than 5 recorded failures the report is the common part
plus a single count line (no itemized per-failure lines, since the common
part never reads the errors list); with 1 to 5 failures every failure is
itemized with its title and error message; getStats always returns the
complete failure list. -/
theorem generateReport_failure_truncation (st : StatsState) (now : Nat) :
    (5 < st.errors.length →
      StatsCollector.generateReportLines st now =
        StatsCollector.reportCommon st now ++
          ["", toString st.errors.length ++ " videos failed (use --verbose for details)"]) ∧
    (0 < st.errors.length → st.errors.length ≤ 5 →
      StatsCollector.generateReportLines st now =
        StatsCollector.reportCommon st now ++
          (["", "Failed Videos:"] ++ st.errors.map StatsCollector.reportErrorLine)) ∧
    (StatsCollector.getStats st now).errors = st.errors := by
  refine ⟨?_, ?_, rfl⟩
  · intro h
    simp only [StatsCollector.generateReportLines, StatsCollector.reportCommon]
    congr 1
    rw [if_neg (by omega : ¬(0 < st.errors.length ∧ st.errors.length ≤ 5)),
      if_pos h]
  · intro h1 h2
    simp only [StatsCollector.generateReportLines, StatsCollector.reportCommon]
    congr 1
    exact if_pos ⟨h1, h2⟩

/-- C9 counterexample: calling succeedVideo with an id that was never
started does change the tracker's state: the succeeded counter goes from 0
to 1, refuting the claim that the state is left unchanged. -/
theorem succeedVideo_unknown_id_counterexample :
    (ProgressTracker.succeedVideo progressAfterStart "missing" "t").succeeded = 1 ∧
    progressAfterStart.succeeded = 0 ∧
    ProgressTracker.succeedVideo progressAfterStart "missing" "t" ≠ progressAfterStart :=
  ⟨rfl, rfl, by decide⟩

/-- C9 (amended): for an id never passed to startVideo, succeedVideo still
increments completed and succeeded and failVideo still increments completed
and failed; only the per-item spinner map is left untouched, so no per-item
status is created. -/
theorem progress_unknown_id_increments_counters (st : ProgressState)
    (videoId title msg : String)
    (h : mapGet st.videoSpinners videoId = none) :
    ProgressTracker.succeedVideo st videoId title =
      { st with completed := st.completed + 1, succeeded := st.succeeded + 1 } ∧
    ProgressTracker.failVideo st videoId title msg =
      { st with completed := st.completed + 1, failed := st.failed + 1 } := by
  constructor
  · unfold ProgressTracker.succeedVideo
    simp [h]
  · unfold ProgressTracker.failVideo
    simp [h]

/-- Witness for C9 (amended) at a fresh tracker and an unknown id. -/
theorem progress_unknown_id_increments_counters_witness :
    ProgressTracker.succeedVideo progressAfterStart "x" "t" =
      { progressAfterStart with
          completed := progressAfterStart.completed + 1,
          succeeded := progressAfterStart.succeeded + 1 } ∧
    ProgressTracker.failVideo progressAfterStart "x" "t" "m" =
      { progressAfterStart with
          completed := progressAfterStart.completed + 1,
          failed := progressAfterStart.failed + 1 } :=
  progress_unknown_id_increments_counters progressAfterStart "x" "t" "m" rfl

/-- C10: when the external SRT parser rejects the content, convertToPlainText
raises a ParseError carrying the subtitle file's path and leaves the
filesystem exactly as it was: the output file is not written and the
original is not deleted, whatever deleteOriginal is. -/
theorem convertToPlainText_parse_error_atomic
    (srtParse : String → Except String (List String)) (fs : FileSys)
    (subtitlePath outputPath : String) (deleteOriginal : Bool)
    (content m : String)
    (hread : fsRead fs subtitlePath = some content)
    (hvtt : strEndsWithSuffix subtitlePath ".vtt" = false)
    (hparse : srtParse content = Except.error m) :
    convertToPlainText srtParse fs subtitlePath outputPath deleteOriginal =
      (fs, Except.error
        (mkParseError ("Failed to parse subtitle file: " ++ m) subtitlePath)) ∧
    (mkParseError ("Failed to parse subtitle file: " ++ m) subtitlePath).name =
      "ParseError" ∧
    (mkParseError ("Failed to parse subtitle file: " ++ m) subtitlePath).filePath =
      some subtitlePath := by
  refine ⟨?_, rfl, rfl⟩
  unfold convertToPlainText
  rw [hread]
  simp [hvtt, hparse]

/-- Witness for C10 at a one-file filesystem and a rejecting parser, with
deleteOriginal true. -/
theorem convertToPlainText_parse_error_atomic_witness :
    convertToPlainText failingSrtParse badSrtFs "a.srt" "a.txt" true =
      (badSrtFs, Except.error
        (mkParseError "Failed to parse subtitle file: bad" "a.srt")) ∧
    (mkParseError "Failed to parse subtitle file: bad" "a.srt").name =
      "ParseError" ∧
    (mkParseError "Failed to parse subtitle file: bad" "a.srt").filePath =
      some "a.srt" :=
  convertToPlainText_parse_error_atomic failingSrtParse badSrtFs "a.srt" "a.txt"
    true "garbage" "bad" rfl rfl rfl
